import Mathlib

/-!
Verification development for the bookmark-collection share-access subsystem.

The definitions below are a shallow embedding of the TypeScript source:

* `src/lib/actions/collections.ts` — the server actions `createCollection`,
  `updateCollection`, `deleteCollection`, `verifySharePassword` together with
  their Zod validation schemas;
* `src/app/share/[slug]/page.tsx` — the public share page (`SharePage`);
* `src/lib/auth.ts` / `src/lib/db.ts` — `getEnhancedPrisma`, which wraps the
  persistence layer in the access-policy filter declared in the ZenStack
  schema (`src/db/schema.zmodel`).

The ZenStack schema file itself (the `@@allow` policy rules, the `@password`
hashing directive and the `onDelete: Cascade` flag) is not part of the
available sources; those pieces are modelled from the specification and the
README, and each such definition is marked `Modelled from the spec:` in its
doc comment.  Everything else is translated directly from the TypeScript.

Database state is a pair of lists (collections, bookmarks); every server
action is a pure function from the state (plus the acting user and the
request payload) to a result and a successor state.  Effects that matter to
the claims — cookies set by a server action, the number of bcrypt
comparisons, the number of artificial random delays — are recorded
explicitly in the result of the embedded function.
-/

namespace Bookmarks

/-- The `ShareMode` enum of the schema: PRIVATE, LINK_ACCESS, PASSWORD_PROTECTED. -/
inductive ShareMode where
  | PRIVATE
  | LINK_ACCESS
  | PASSWORD_PROTECTED
deriving DecidableEq, Repr

/-- A collection row.  `sharePassword` holds the bcrypt hash (or null). -/
structure Collection where
  id : String
  name : String
  description : Option String
  slug : String
  shareMode : ShareMode
  sharePassword : Option String
  ownerId : String
deriving DecidableEq, Repr

/-- A bookmark row; belongs to exactly one collection via `collectionId`. -/
structure Bookmark where
  id : String
  title : String
  url : String
  collectionId : String
deriving DecidableEq, Repr

/-- The persistent state: the collection table and the bookmark table. -/
structure DB where
  collections : List Collection
  bookmarks : List Bookmark
deriving DecidableEq, Repr

/-- The acting user context: `none` is an anonymous visitor, `some uid` an
authenticated user, exactly as `getCurrentUser` yields it to
`getEnhancedPrisma` in `src/lib/auth.ts` / `src/lib/db.ts`. -/
abbrev Actor := Option String

/-- Modelled from the spec: the one-way hash primitive supplied by the
persistence collaborator (bcryptjs via the `@password` directive of the
missing `schema.zmodel`).  Modelled as an injective tagging function; the
claims only ever use it through `bcryptCompare`. -/
def hashPassword (plaintext : String) : String :=
  "bcrypt$" ++ plaintext

/-- Modelled from the spec: `compare` of bcryptjs — checks a plaintext
against a stored hash, used by `verifySharePassword`. -/
def bcryptCompare (plaintext storedHash : String) : Bool :=
  storedHash == hashPassword plaintext

/-- Modelled from the spec: the collection read rule of the missing
`schema.zmodel` (README: owner can CRUD, others can read if not PRIVATE).
The enhanced Prisma client filters reads with this predicate. -/
def canReadCollection (user : Actor) (c : Collection) : Bool :=
  user == some c.ownerId || c.shareMode != ShareMode.PRIVATE

/-- Modelled from the spec: the collection write rule of the missing
`schema.zmodel` — create, update and delete are owner-only. -/
def canWriteCollection (user : Actor) (c : Collection) : Bool :=
  user == some c.ownerId

/-- Raw lookup of a collection by slug (the underlying Prisma `findUnique`). -/
def findBySlug (db : DB) (slug : String) : Option Collection :=
  db.collections.find? (fun c => c.slug == slug)

/-- Raw lookup of a collection by id. -/
def findById (db : DB) (id : String) : Option Collection :=
  db.collections.find? (fun c => c.id == id)

/-- The enhanced-client `collection.findUnique({ where: { slug } })`: the
policy filter hides rows the acting user may not read, so a PRIVATE
collection of another owner behaves exactly like a missing row. -/
def enhancedFindBySlug (user : Actor) (db : DB) (slug : String) : Option Collection :=
  match findBySlug db slug with
  | none => none
  | some c => if canReadCollection user c then some c else none

/-- The bookmarks belonging to a collection (the `include: { bookmarks }`
of the share-page query; bookmarks inherit read access from the parent, so
once the parent is readable the whole list is returned). -/
def bookmarksOf (db : DB) (collectionId : String) : List Bookmark :=
  db.bookmarks.filter (fun b => b.collectionId == collectionId)

/-- A cookie jar as sent with the request: name-value pairs. -/
abbrev CookieJar := List (String × String)

/-- Value of a cookie in the jar, as `cookieStore.get(name)?.value`. -/
def cookieValue (jar : CookieJar) (name : String) : Option String :=
  (jar.find? (fun kv => kv.fst == name)).map (fun kv => kv.snd)

/-- What the public share page renders, from `src/app/share/[slug]/page.tsx`:
either the not-found page, or the password gate (which shows only the slug
and the collection name), or the full content with the bookmark list. -/
inductive SharePageView where
  | notFound
  | passwordGate (slug : String) (collectionName : String)
  | content (name : String) (description : Option String) (bookmarks : List Bookmark)
deriving DecidableEq, Repr

/-- The `SharePage` server component of `src/app/share/[slug]/page.tsx`:
fetch by slug through the enhanced client (`notFound()` when the policy
hides the row), then for PASSWORD_PROTECTED collections consult the
`share-verified-{slug}` cookie and render the `PasswordGate` unless its
value is the string true; otherwise render the collection content. -/
def SharePage (db : DB) (user : Actor) (jar : CookieJar) (slug : String) : SharePageView :=
  match enhancedFindBySlug user db slug with
  | none => SharePageView.notFound
  | some c =>
    if c.shareMode = ShareMode.PASSWORD_PROTECTED then
      if cookieValue jar ("share-verified-" ++ slug) = some "true" then
        SharePageView.content c.name c.description (bookmarksOf db c.id)
      else
        SharePageView.passwordGate slug c.name
    else
      SharePageView.content c.name c.description (bookmarksOf db c.id)

/-- The generic denial message constant `ACCESS_DENIED_ERROR` of
`src/lib/actions/collections.ts`. -/
def ACCESS_DENIED_ERROR : String :=
  "Access denied. You do not have permission to perform this operation."

/-- The `{ success, error? }` payload returned by `verifySharePassword`. -/
structure VerifyResult where
  success : Bool
  error : Option String
deriving DecidableEq, Repr

/-- The observable behaviour of one `verifySharePassword` call: its returned
payload, the number of bcrypt comparisons performed, the number of
artificial random-delay awaits performed, and the cookies the server action
set during the call. -/
structure VerifyTrace where
  result : VerifyResult
  hashCompares : Nat
  randomDelays : Nat
  cookiesSet : List (String × String)
deriving DecidableEq, Repr

/-- The `verifySharePassword(slug, password)` server action of
`src/lib/actions/collections.ts`.  It queries through the enhanced client
(so a PRIVATE collection of another owner is indistinguishable from a
missing slug), returns the generic denial payload when the slug does not
resolve, when the collection is not PASSWORD_PROTECTED, or when no hash is
stored — awaiting a random 100–200 ms delay in those branches — and
otherwise performs a single bcrypt comparison.  The action never sets a
cookie. -/
def verifySharePassword (db : DB) (user : Actor) (slug password : String) : VerifyTrace :=
  match enhancedFindBySlug user db slug with
  | none =>
      { result := { success := false, error := some ACCESS_DENIED_ERROR }
        hashCompares := 0, randomDelays := 1, cookiesSet := [] }
  | some c =>
    if c.shareMode ≠ ShareMode.PASSWORD_PROTECTED then
      { result := { success := false, error := some ACCESS_DENIED_ERROR }
        hashCompares := 0, randomDelays := 1, cookiesSet := [] }
    else
      match c.sharePassword with
      | none =>
          { result := { success := false, error := some ACCESS_DENIED_ERROR }
            hashCompares := 0, randomDelays := 1, cookiesSet := [] }
      | some storedHash =>
          if bcryptCompare password storedHash then
            { result := { success := true, error := none }
              hashCompares := 1, randomDelays := 0, cookiesSet := [] }
          else
            { result := { success := false, error := some ACCESS_DENIED_ERROR }
              hashCompares := 1, randomDelays := 0, cookiesSet := [] }

/-- The branch of `verifySharePassword` that reaches the stored-hash bcrypt
comparison: the slug resolves (through the policy filter) to a
PASSWORD_PROTECTED collection with a non-null stored hash. -/
def reachesStoredHash (db : DB) (user : Actor) (slug : String) : Bool :=
  match enhancedFindBySlug user db slug with
  | none => false
  | some c => c.shareMode == ShareMode.PASSWORD_PROTECTED && c.sharePassword.isSome

/-- The `ActionResult` discriminated union of `src/lib/types.ts`:
`successResponse(data, message)` or `errorResponse(message, errors?)`. -/
inductive ActionResult (α : Type) where
  | ok (data : α) (message : Option String)
  | err (message : String)
deriving DecidableEq, Repr

/-- Whether an `ActionResult` is a success. -/
def ActionResult.isOk {α : Type} : ActionResult α → Bool
  | ActionResult.ok _ _ => true
  | ActionResult.err _ => false

/-- The raw payload of a `createCollection` request before Zod validation.
The `sharePassword` field distinguishes absent (`none`), explicit null
(`some none`) and a supplied string (`some (some s)`), because the schema
declares it `.optional().nullable()`. -/
structure CreateInput where
  name : String
  description : Option String
  slug : Option String
  shareMode : Option ShareMode
  sharePassword : Option (Option String)
deriving DecidableEq, Repr

/-- The raw payload of an `updateCollection` request: every field of the
create payload except `slug`, each optional
(`createCollectionSchema.omit({ slug: true }).partial()`). -/
structure UpdateInput where
  name : Option String
  description : Option String
  shareMode : Option ShareMode
  sharePassword : Option (Option String)
deriving DecidableEq, Repr

/-- Field check for `sharePassword`: `z.string().min(4).max(100)` applied
when a string is supplied; absent and null always pass. -/
def sharePasswordFieldOk : Option (Option String) → Bool
  | none => true
  | some none => true
  | some (some s) => 4 ≤ s.length && s.length ≤ 100

/-- The transform on the `sharePassword` field (maps the empty string to
null, other values unchanged).  It runs after the field checks, so the
empty-string case is unreachable in practice, but it is kept faithful. -/
def sharePasswordTransform : Option (Option String) → Option (Option String)
  | none => none
  | some none => some none
  | some (some s) => if s == "" then some none else some (some s)

/-- The `.refine` of `createCollectionSchema`: when the (parsed) share mode
is PASSWORD_PROTECTED, a password of length at least 4 must be present;
otherwise the payload passes.  This object-level refinement belongs to the
create schema only: the `.omit({ slug: true }).partial()` derivation of the
update schema rebuilds the object from its field shape and drops the
refinement, so no such check exists on the update path. -/
def passwordRefine (mode : Option ShareMode) (pw : Option (Option String)) : Bool :=
  if mode == some ShareMode.PASSWORD_PROTECTED then
    match pw with
    | some (some s) => 4 ≤ s.length
    | _ => false
  else
    true

/-- Validation of a create payload by `createCollectionSchema`:
name 1–100 characters, description up to 500, slug 1–100 when present,
the `sharePassword` field check, and the refinement. -/
def createInputValid (d : CreateInput) : Bool :=
  1 ≤ d.name.length && d.name.length ≤ 100
    && (match d.description with
        | none => true
        | some s => s.length ≤ 500)
    && (match d.slug with
        | none => true
        | some s => 1 ≤ s.length && s.length ≤ 100)
    && sharePasswordFieldOk d.sharePassword
    && passwordRefine (some (d.shareMode.getD ShareMode.PRIVATE))
        (sharePasswordTransform d.sharePassword)

/-- Validation of an update payload by `updateCollectionSchema`.  The
schema is `createCollectionSchema.omit({ slug: true }).partial()`: the
object utility methods rebuild the schema from its field shape, so only the
per-field checks survive, each field optional, and the object-level
credential refinement of the create schema is dropped — an update entering
PASSWORD_PROTECTED without a credential passes validation.  The
`shareMode` default also does not fire through `.partial()`, so an absent
mode stays absent. -/
def updateInputValid (d : UpdateInput) : Bool :=
  (match d.name with
   | none => true
   | some s => 1 ≤ s.length && s.length ≤ 100)
    && (match d.description with
        | none => true
        | some s => s.length ≤ 500)
    && sharePasswordFieldOk d.sharePassword

/-- The `createCollection` server action.  Validation failure returns the
`Validation failed` error before any state change; an anonymous caller is
rejected; otherwise a row is inserted with the caller as owner, the share
mode defaulted to PRIVATE, and the password hashed by the `@password`
directive (modelled by `hashPassword`).  `freshId` is the generated row id
and `genSlug` the slug the persistence layer generates when the payload
supplies none; a duplicate slug violates the unique constraint and surfaces
as the database error. -/
def createCollection (db : DB) (user : Actor) (freshId genSlug : String)
    (d : CreateInput) : ActionResult Collection × DB :=
  if !createInputValid d then
    (ActionResult.err "Validation failed", db)
  else
    match user with
    | none => (ActionResult.err "User must be logged in to create a collection", db)
    | some uid =>
        let slug := d.slug.getD genSlug
        if db.collections.any (fun c => c.slug == slug) then
          (ActionResult.err "Database error during collection creation", db)
        else
          let pw : Option String :=
            match sharePasswordTransform d.sharePassword with
            | some (some s) => some (hashPassword s)
            | _ => none
          let c : Collection :=
            { id := freshId, name := d.name, description := d.description
              slug := slug, shareMode := d.shareMode.getD ShareMode.PRIVATE
              sharePassword := pw, ownerId := uid }
          (ActionResult.ok c (some "Collection created successfully"),
           { db with collections := db.collections ++ [c] })

/-- Application of a parsed update payload to an existing row, exactly as
Prisma `update` treats the data object: absent fields are untouched, an
explicit null clears `sharePassword`, and a supplied string is stored
hashed (the `@password` directive).  In particular a mode change away from
PASSWORD_PROTECTED without a `sharePassword` field leaves the stored hash
in place. -/
def applyUpdate (c : Collection) (d : UpdateInput) : Collection :=
  { c with
    name := d.name.getD c.name
    description := (d.description.map some).getD c.description
    shareMode := d.shareMode.getD c.shareMode
    sharePassword :=
      match sharePasswordTransform d.sharePassword with
      | none => c.sharePassword
      | some none => none
      | some (some s) => some (hashPassword s) }

/-- The `updateCollection` server action.  Validation failure returns the
`Validation failed` error before any state change; an anonymous caller is
rejected; the enhanced client raises (caught as the database error) when
the row is missing or the caller is not its owner; otherwise the supplied
fields are written. -/
def updateCollection (db : DB) (user : Actor) (id : String)
    (d : UpdateInput) : ActionResult Collection × DB :=
  if !updateInputValid d then
    (ActionResult.err "Validation failed", db)
  else
    match user with
    | none => (ActionResult.err "User must be logged in to update a collection", db)
    | some uid =>
        match findById db id with
        | none => (ActionResult.err "Database error during collection update", db)
        | some c =>
            if c.ownerId == uid then
              let c' := applyUpdate c d
              (ActionResult.ok c' (some "Collection updated successfully"),
               { db with collections :=
                   db.collections.map (fun x => if x.id == id then c' else x) })
            else
              (ActionResult.err "Database error during collection update", db)

/-- The `deleteCollection` server action.  An empty id and an anonymous
caller are rejected up front; the enhanced client raises (caught as the
database error) when the row is missing or the caller is not its owner;
otherwise the collection row and — `Modelled from the spec:` via the
`onDelete: Cascade` relation flag of the missing `schema.zmodel`, which the
README and the cascade tests document — every bookmark referencing it are
removed in the same atomic write. -/
def deleteCollection (db : DB) (user : Actor) (id : String) :
    ActionResult Unit × DB :=
  if id == "" then
    (ActionResult.err "Collection ID is required for deletion", db)
  else
    match user with
    | none => (ActionResult.err "User must be logged in to delete a collection", db)
    | some uid =>
        match findById db id with
        | none => (ActionResult.err "Database error during collection deletion", db)
        | some c =>
            if c.ownerId == uid then
              (ActionResult.ok () (some "Collection deleted successfully"),
               { collections := db.collections.filter (fun x => x.id != id)
                 bookmarks := db.bookmarks.filter (fun b => b.collectionId != id) })
            else
              (ActionResult.err "Database error during collection deletion", db)

/-- Modelled from the spec: the pure access decision of the Policy Engine
(the `@@allow` rules of the missing `schema.zmodel`, stated in §4.1 of the
specification and the README — owner can CRUD, others can read when the
mode is not PRIVATE, and non-owners never write). -/
inductive Operation where
  | READ
  | CREATE
  | UPDATE
  | DELETE
deriving DecidableEq, Repr

/-- The two possible access decisions. -/
inductive Decision where
  | ALLOW
  | DENY
deriving DecidableEq, Repr

/-- Modelled from the spec: `decide(actor, collection, operation)` — the
policy evaluation the enhanced Prisma client of `getEnhancedPrisma`
performs on every query (`src/lib/auth.ts` line 99, `src/lib/db.ts`). -/
def decide (user : Actor) (c : Collection) (op : Operation) : Decision :=
  match op with
  | Operation.READ =>
      if canReadCollection user c then Decision.ALLOW else Decision.DENY
  | _ =>
      if canWriteCollection user c then Decision.ALLOW else Decision.DENY

/-- Invariant I1 for a single row: the stored hash is non-null exactly when
the share mode is PASSWORD_PROTECTED. -/
def invariantI1 (c : Collection) : Bool :=
  (c.shareMode == ShareMode.PASSWORD_PROTECTED) == c.sharePassword.isSome

/-- A direct share-mode write on one row, leaving every other field
unchanged (the transition of the claim statements). -/
def setShareMode (db : DB) (id : String) (m : ShareMode) : DB :=
  { db with collections :=
      db.collections.map (fun c => if c.id == id then { c with shareMode := m } else c) }

/-- Whether a request payload carries no usable credential: the
`sharePassword` field is absent, explicitly null, or the empty string
(which the field transform maps to null). -/
def noCredential (pw : Option (Option String)) : Bool :=
  match sharePasswordTransform pw with
  | some (some _) => false
  | _ => true

/-- The empty database. -/
def emptyDB : DB :=
  { collections := [], bookmarks := [] }

/-- A PASSWORD_PROTECTED fixture collection with the stored hash of the
credential hunter2, owned by user u1. -/
def demoCollection : Collection :=
  { id := "c1", name := "Demo", description := none, slug := "demo"
    shareMode := ShareMode.PASSWORD_PROTECTED
    sharePassword := some (hashPassword "hunter2"), ownerId := "u1" }

/-- A bookmark inside the fixture collection. -/
def demoBookmark : Bookmark :=
  { id := "b1", title := "Example", url := "https://example.com", collectionId := "c1" }

/-- Fixture database holding the protected collection and its bookmark. -/
def demoDB : DB :=
  { collections := [demoCollection], bookmarks := [demoBookmark] }

/-- A LINK_ACCESS fixture collection owned by user u1. -/
def linkCollection : Collection :=
  { id := "c2", name := "Links", description := none, slug := "links"
    shareMode := ShareMode.LINK_ACCESS, sharePassword := none, ownerId := "u1" }

/-- A bookmark inside the link-access fixture collection. -/
def linkBookmark : Bookmark :=
  { id := "b2", title := "Cool Website", url := "https://a.com", collectionId := "c2" }

/-- Fixture database holding the link-access collection and its bookmark. -/
def linkDB : DB :=
  { collections := [linkCollection], bookmarks := [linkBookmark] }

/-- C6: owner supremacy — for every collection, every share mode and every
operation in {READ, CREATE, UPDATE, DELETE}, the access decision evaluated
for the collection owner is ALLOW; ownership is absolute and independent of
the current share mode. -/
theorem owner_always_allowed (c : Collection) (op : Operation) :
    decide (some c.ownerId) c op = Decision.ALLOW := by
  cases op <;>
    simp [Bookmarks.decide, canReadCollection, canWriteCollection]

/-- C2: calling `verifySharePassword` on the PASSWORD_PROTECTED fixture
collection with the correct credential hunter2 returns success, but the
call sets no cookie at all — the verified-session marker the share page
consults is never issued, so an immediate revisit of the share page still
renders the password gate.  (The password-gate component documents that the
cookie is set by the server action, and the README requires the password to
be entered only once per session; the cited implementation omits the cookie
write.) -/
theorem verify_share_password_issues_no_marker :
    (verifySharePassword demoDB none "demo" "hunter2").result.success = true ∧
    (verifySharePassword demoDB none "demo" "hunter2").cookiesSet = [] ∧
    SharePage demoDB none [] "demo" = SharePageView.passwordGate "demo" "Demo" := by
  decide

/-- C5 counterexample: with an unknown slug, `verifySharePassword` performs
zero hash comparisons (it awaits a random delay instead), so the claim that
exactly one equal-cost hash comparison happens in every execution fails. -/
theorem verify_no_hash_comparison_on_missing_slug :
    ¬ ((verifySharePassword emptyDB none "no-such-slug" "anything").hashCompares = 1) := by
  decide

/-- C5 amended: `verifySharePassword` performs exactly one bcrypt
comparison when and only when the slug resolves (through the policy
filter) to a PASSWORD_PROTECTED collection with a stored hash; in the
three no-real-hash branches it performs zero hash comparisons and instead
awaits one random 100–200 ms delay. -/
theorem verify_hash_compare_count (db : DB) (user : Actor) (slug password : String) :
    ((verifySharePassword db user slug password).hashCompares
        = if reachesStoredHash db user slug then 1 else 0) ∧
    ((verifySharePassword db user slug password).randomDelays
        = if reachesStoredHash db user slug then 0 else 1) := by
  rcases hE : enhancedFindBySlug user db slug with _ | c
  · simp [verifySharePassword, reachesStoredHash, hE]
  · rcases hP : c.sharePassword with _ | storedHash
    · by_cases hm : c.shareMode = ShareMode.PASSWORD_PROTECTED <;>
        simp [verifySharePassword, reachesStoredHash, hE, hP, hm]
    · by_cases hm : c.shareMode = ShareMode.PASSWORD_PROTECTED
      · by_cases hb : bcryptCompare password storedHash = true <;>
          simp [verifySharePassword, reachesStoredHash, hE, hP, hm, hb]
      · simp [verifySharePassword, reachesStoredHash, hE, hP, hm]

/-- C4: every DENY of `verifySharePassword` — unknown slug, collection not
password-gated, missing stored hash, or wrong password on a real protected
collection — is the identical payload: success false with the same generic
error text and no structural difference between the cases. -/
theorem deny_payload_uniform (db : DB) (user : Actor) (slug password : String)
    (h : (verifySharePassword db user slug password).result.success = false) :
    (verifySharePassword db user slug password).result
      = { success := false, error := some ACCESS_DENIED_ERROR } := by
  rcases hE : enhancedFindBySlug user db slug with _ | c
  · simp [verifySharePassword, hE]
  · rcases hP : c.sharePassword with _ | storedHash
    · by_cases hm : c.shareMode = ShareMode.PASSWORD_PROTECTED <;>
        simp [verifySharePassword, hE, hP, hm]
    · by_cases hm : c.shareMode = ShareMode.PASSWORD_PROTECTED
      · by_cases hb : bcryptCompare password storedHash = true
        · exfalso
          simp [verifySharePassword, hE, hP, hm, hb] at h
        · simp [verifySharePassword, hE, hP, hm, hb]
      · simp [verifySharePassword, hE, hP, hm]

/-- C4 witness: a concrete DENY (unknown slug on the empty database) is the
canonical denial payload. -/
theorem deny_payload_uniform_witness :
    (verifySharePassword emptyDB none "no-such" "pw").result
      = { success := false, error := some ACCESS_DENIED_ERROR } :=
  deny_payload_uniform emptyDB none "no-such" "pw" (by decide)

/-- C9: two-stage read — for every PASSWORD_PROTECTED collection and every
reader, the share page without a valid verified-session marker for the slug
renders only the password gate (existence and collection name), never the
bookmark contents; the content view is rendered exactly when the marker
cookie for that slug holds the value true. -/
theorem password_gate_two_stage_read (db : DB) (user : Actor) (jar : CookieJar)
    (slug : String) (c : Collection)
    (hfind : findBySlug db slug = some c)
    (hmode : c.shareMode = ShareMode.PASSWORD_PROTECTED) :
    (cookieValue jar ("share-verified-" ++ slug) ≠ some "true" →
        SharePage db user jar slug = SharePageView.passwordGate slug c.name) ∧
    (cookieValue jar ("share-verified-" ++ slug) = some "true" →
        SharePage db user jar slug
          = SharePageView.content c.name c.description (bookmarksOf db c.id)) := by
  have hE : enhancedFindBySlug user db slug = some c := by
    simp [enhancedFindBySlug, hfind, canReadCollection, hmode]
  constructor
  · intro h
    simp [SharePage, hE, hmode, h]
  · intro h
    simp [SharePage, hE, hmode, h]

/-- C9 witness: on the fixture database, an anonymous visitor without the
marker sees the gate, and with the marker cookie sees the content. -/
theorem password_gate_two_stage_read_witness :
    (SharePage demoDB none [] "demo" = SharePageView.passwordGate "demo" "Demo") ∧
    (SharePage demoDB none [("share-verified-demo", "true")] "demo"
      = SharePageView.content "Demo" none [demoBookmark]) :=
  ⟨(password_gate_two_stage_read demoDB none [] "demo" demoCollection
      (by decide) (by decide)).1 (by decide),
   (password_gate_two_stage_read demoDB none [("share-verified-demo", "true")] "demo"
      demoCollection (by decide) (by decide)).2 (by decide)⟩

/-- C10: the marker check of the share page is applied uniformly to every
actor, including the collection owner — an owner visiting the share page of
their own PASSWORD_PROTECTED collection without the share-verified cookie
is shown the password gate, not the contents. -/
theorem owner_sees_password_gate (db : DB) (jar : CookieJar) (slug : String)
    (c : Collection)
    (hfind : findBySlug db slug = some c)
    (hmode : c.shareMode = ShareMode.PASSWORD_PROTECTED)
    (hjar : cookieValue jar ("share-verified-" ++ slug) ≠ some "true") :
    SharePage db (some c.ownerId) jar slug = SharePageView.passwordGate slug c.name := by
  have hE : enhancedFindBySlug (some c.ownerId) db slug = some c := by
    simp [enhancedFindBySlug, hfind, canReadCollection]
  simp [SharePage, hE, hmode, hjar]

/-- C10 witness: the fixture owner u1 without the cookie gets the gate. -/
theorem owner_sees_password_gate_witness :
    SharePage demoDB (some "u1") [] "demo" = SharePageView.passwordGate "demo" "Demo" :=
  owner_sees_password_gate demoDB [] "demo" demoCollection
    (by decide) (by decide) (by decide)

/-- A share-mode write on one row does not disturb slug lookup: the lookup
finds the same row, with only its mode rewritten. -/
theorem findBySlug_setShareMode (db : DB) (id : String) (m : ShareMode) (slug : String) :
    findBySlug (setShareMode db id m) slug
      = (findBySlug db slug).map
          (fun c => if c.id == id then { c with shareMode := m } else c) := by
  have hp : ((fun c : Collection => c.slug == slug) ∘ fun c : Collection =>
        if c.id == id then { c with shareMode := m } else c)
      = fun c : Collection => c.slug == slug := by
    funext c
    by_cases hid : c.id = id <;> simp [Function.comp, hid]
  unfold findBySlug setShareMode
  simp only [List.find?_map]
  rw [hp]

/-- C1: revocation — for a collection currently in LINK_ACCESS or
PASSWORD_PROTECTED that a non-owner has successfully read (under any cookie
jar, with or without a verified-session marker), changing its share mode to
PRIVATE makes an immediate subsequent share-page read by that non-owner
yield not-found, whatever markers the reader still holds; no prior access
is grandfathered. -/
theorem revocation_to_private_denies_nonowner_read (db : DB) (a : Actor)
    (jar0 jar : CookieJar) (slug : String) (c : Collection)
    (hfind : findBySlug db slug = some c)
    (hmode : c.shareMode = ShareMode.LINK_ACCESS ∨ c.shareMode = ShareMode.PASSWORD_PROTECTED)
    (hprev : SharePage db a jar0 slug ≠ SharePageView.notFound)
    (hnon : a ≠ some c.ownerId) :
    SharePage (setShareMode db c.id ShareMode.PRIVATE) a jar slug
      = SharePageView.notFound := by
  have hf : findBySlug (setShareMode db c.id ShareMode.PRIVATE) slug
      = some { c with shareMode := ShareMode.PRIVATE } := by
    rw [findBySlug_setShareMode, hfind]
    simp
  have hr : canReadCollection a { c with shareMode := ShareMode.PRIVATE } = false := by
    simp [canReadCollection, hnon]
  simp [SharePage, enhancedFindBySlug, hf, hr]

/-- C1 witness: an anonymous visitor who could read the LINK_ACCESS fixture
is denied immediately after the mode flips to PRIVATE, even presenting a
stale verified-session marker for the slug. -/
theorem revocation_to_private_denies_nonowner_read_witness :
    SharePage (setShareMode linkDB linkCollection.id ShareMode.PRIVATE) none
        [("share-verified-links", "true")] "links"
      = SharePageView.notFound :=
  revocation_to_private_denies_nonowner_read linkDB none []
    [("share-verified-links", "true")] "links" linkCollection
    (by decide) (Or.inl (by decide)) (by decide) (by decide)

/-- The update payload that only flips the share mode to LINK_ACCESS,
leaving every other field absent — what a mode-only settings change sends. -/
def modeOnlyLinkAccess : UpdateInput :=
  { name := none, description := none
    shareMode := some ShareMode.LINK_ACCESS, sharePassword := none }

/-- C3 counterexample: updating the PASSWORD_PROTECTED fixture collection
to LINK_ACCESS without touching the password field succeeds, and the
resulting state violates invariant I1 — the collection is no longer
PASSWORD_PROTECTED yet still retains its stale credential hash. -/
theorem update_leaves_stale_hash_counterexample :
    ((updateCollection demoDB (some "u1") "c1" modeOnlyLinkAccess).1.isOk = true) ∧
    ((updateCollection demoDB (some "u1") "c1" modeOnlyLinkAccess).2.collections.all
        invariantI1 = false) := by
  decide

/-- C3 amended: an owner update that changes the share mode away from
PASSWORD_PROTECTED without supplying the `sharePassword` field succeeds and
leaves the stored credential hash untouched — the mode change and the hash
are independent fields of the write, so leaving PASSWORD_PROTECTED does not
clear the hash and invariant I1 is not maintained by the code; the hash is
cleared only when the request explicitly sends `sharePassword` as null. -/
theorem update_away_from_password_keeps_hash (db : DB) (uid id : String)
    (c : Collection) (m : ShareMode)
    (hfind : findById db id = some c)
    (hown : c.ownerId = uid)
    (hm : m ≠ ShareMode.PASSWORD_PROTECTED) :
    updateCollection db (some uid) id
        { name := none, description := none, shareMode := some m, sharePassword := none }
      = (ActionResult.ok { c with shareMode := m } (some "Collection updated successfully"),
         { db with collections :=
             (db.collections.map
               (fun x => if x.id == id then { c with shareMode := m } else x)) }) := by
  have hv : updateInputValid
      { name := none, description := none, shareMode := some m, sharePassword := none } = true := by
    simp [updateInputValid, sharePasswordFieldOk, sharePasswordTransform, passwordRefine, hm]
  have happ : applyUpdate c
      { name := none, description := none, shareMode := some m, sharePassword := none }
      = { c with shareMode := m } := by
    simp [applyUpdate, sharePasswordTransform]
  simp [updateCollection, hv, hfind, hown, happ]

/-- C3 amended witness: the concrete fixture update retains the stale hash
of hunter2 while the mode becomes LINK_ACCESS. -/
theorem update_away_from_password_keeps_hash_witness :
    updateCollection demoDB (some "u1") "c1"
        { name := none, description := none
          shareMode := some ShareMode.LINK_ACCESS, sharePassword := none }
      = (ActionResult.ok
           { demoCollection with shareMode := ShareMode.LINK_ACCESS }
           (some "Collection updated successfully"),
         { demoDB with collections :=
             (demoDB.collections.map
               (fun x => if x.id == "c1" then
                  { demoCollection with shareMode := ShareMode.LINK_ACCESS } else x)) }) :=
  update_away_from_password_keeps_hash demoDB "u1" "c1" demoCollection
    ShareMode.LINK_ACCESS (by decide) (by decide) (by decide)

/-- C7: cascade deletion — whenever `deleteCollection` succeeds, the
resulting state has no collection row with the deleted id and zero
bookmarks referencing it; both removals happen in the one atomic state
transition of the action, so no intermediate state is observable. -/
theorem delete_collection_cascades (db : DB) (user : Actor) (id : String)
    (hok : (deleteCollection db user id).1.isOk = true) :
    findById (deleteCollection db user id).2 id = none ∧
    (deleteCollection db user id).2.bookmarks.filter
        (fun b => b.collectionId == id) = [] := by
  by_cases h0 : (id == "") = true
  · simp [deleteCollection, h0, ActionResult.isOk] at hok
  · rcases user with _ | uid
    · simp [deleteCollection, h0, ActionResult.isOk] at hok
    · rcases hF : findById db id with _ | c
      · simp [deleteCollection, h0, hF, ActionResult.isOk] at hok
      · by_cases hown : (c.ownerId == uid) = true
        · have hres : deleteCollection db (some uid) id
              = (ActionResult.ok () (some "Collection deleted successfully"),
                 { collections := db.collections.filter (fun x => x.id != id)
                   bookmarks := db.bookmarks.filter (fun b => b.collectionId != id) }) := by
            simp [deleteCollection, h0, hF, hown]
          rw [hres]
          constructor
          · show List.find? (fun x => x.id == id)
                (db.collections.filter (fun x => x.id != id)) = none
            rw [List.find?_eq_none]
            intro x hx
            have hmem := List.of_mem_filter hx
            simp at hmem ⊢
            exact hmem
          · show List.filter (fun b => b.collectionId == id)
                (db.bookmarks.filter (fun b => b.collectionId != id)) = []
            rw [List.filter_eq_nil_iff]
            intro b hb
            have hmem := List.of_mem_filter hb
            simp at hmem ⊢
            exact hmem
        · simp [deleteCollection, h0, hF, hown, ActionResult.isOk] at hok

/-- C7 witness: deleting the fixture collection removes the collection row
and its bookmark in one step. -/
theorem delete_collection_cascades_witness :
    findById (deleteCollection demoDB (some "u1") "c1").2 "c1" = none ∧
    (deleteCollection demoDB (some "u1") "c1").2.bookmarks.filter
        (fun b => b.collectionId == "c1") = [] :=
  delete_collection_cascades demoDB (some "u1") "c1" (by decide)

/-- A create payload that selects PRIVATE mode yet supplies a credential. -/
def privateWithPasswordInput : CreateInput :=
  { name := "Notes", description := none, slug := some "notes"
    shareMode := some ShareMode.PRIVATE, sharePassword := some (some "secret1") }

/-- C8 counterexample: a create request whose mode is PRIVATE but which
supplies a credential is not rejected — validation passes, the collection
is created, and the credential is hashed and stored on the PRIVATE row. -/
theorem create_accepts_password_with_private_mode :
    ((createCollection emptyDB (some "u1") "c9" "gen" privateWithPasswordInput).1.isOk
        = true) ∧
    (findById (createCollection emptyDB (some "u1") "c9" "gen"
          privateWithPasswordInput).2 "c9"
      = some { id := "c9", name := "Notes", description := none, slug := "notes"
               shareMode := ShareMode.PRIVATE
               sharePassword := some (hashPassword "secret1"), ownerId := "u1" }) := by
  decide

/-- C8 amended: the credential requirement exists only on the create path —
a create request whose mode is PASSWORD_PROTECTED without a usable
credential is rejected with the validation error before any state
mutation.  On the update path the `.omit({ slug: true }).partial()`
derivation drops the object-level refinement, so an owner update entering
PASSWORD_PROTECTED without a credential is not rejected: it passes
validation and succeeds, flipping the mode while leaving the stored hash
field untouched.  And a request whose new mode is not PASSWORD_PROTECTED
but which supplies a credential also passes validation (the credential is
accepted and stored hashed), rather than being rejected. -/
theorem credential_validation_amended :
    (∀ (db : DB) (user : Actor) (fid gslug : String) (d : CreateInput),
        d.shareMode = some ShareMode.PASSWORD_PROTECTED →
        noCredential d.sharePassword = true →
        createCollection db user fid gslug d = (ActionResult.err "Validation failed", db)) ∧
    (∀ (db : DB) (uid id : String) (c : Collection),
        findById db id = some c →
        c.ownerId = uid →
        updateCollection db (some uid) id
            { name := none, description := none
              shareMode := some ShareMode.PASSWORD_PROTECTED, sharePassword := none }
          = (ActionResult.ok { c with shareMode := ShareMode.PASSWORD_PROTECTED }
               (some "Collection updated successfully"),
             { db with collections :=
                 (db.collections.map
                   (fun x => if x.id == id then
                      { c with shareMode := ShareMode.PASSWORD_PROTECTED } else x)) })) ∧
    (∀ (nm s : String) (m : ShareMode),
        1 ≤ nm.length → nm.length ≤ 100 → 4 ≤ s.length → s.length ≤ 100 →
        m ≠ ShareMode.PASSWORD_PROTECTED →
        createInputValid
            { name := nm, description := none, slug := none
              shareMode := some m, sharePassword := some (some s) } = true) := by
  refine ⟨?_, ?_, ?_⟩
  · intro db user fid gslug d hm hnc
    have hrf : passwordRefine (some (d.shareMode.getD ShareMode.PRIVATE))
        (sharePasswordTransform d.sharePassword) = false := by
      rw [hm]
      rcases ht : sharePasswordTransform d.sharePassword with _ | inner
      · simp [passwordRefine]
      · rcases inner with _ | s
        · simp [passwordRefine]
        · simp [noCredential, ht] at hnc
    have hvalid : createInputValid d = false := by
      simp [createInputValid, hrf]
    simp [createCollection, hvalid]
  · intro db uid id c hfind hown
    have hv : updateInputValid
        { name := none, description := none
          shareMode := some ShareMode.PASSWORD_PROTECTED, sharePassword := none } = true := by
      decide
    have happ : applyUpdate c
        { name := none, description := none
          shareMode := some ShareMode.PASSWORD_PROTECTED, sharePassword := none }
        = { c with shareMode := ShareMode.PASSWORD_PROTECTED } := by
      simp [applyUpdate, sharePasswordTransform]
    simp [updateCollection, hv, hfind, hown, happ]
  · intro nm s m h1 h2 h3 h4 hm
    have hs : s ≠ "" := by
      intro he
      rw [he] at h3
      simp at h3
    simp [createInputValid, sharePasswordFieldOk, passwordRefine,
      sharePasswordTransform, h1, h2, h3, h4, hm, hs]

/-- C8 amended witness: concrete instances of all three parts — a create
entering PASSWORD_PROTECTED without a credential is rejected, an owner
update flipping the LINK_ACCESS fixture to PASSWORD_PROTECTED without any
credential passes validation and succeeds (leaving the password field
null), and a PRIVATE create supplying the credential secret1 passes
validation. -/
theorem credential_validation_amended_witness :
    (createCollection emptyDB (some "u1") "cid" "slg"
        { name := "A", description := none, slug := none
          shareMode := some ShareMode.PASSWORD_PROTECTED, sharePassword := none }
      = (ActionResult.err "Validation failed", emptyDB)) ∧
    (updateCollection linkDB (some "u1") "c2"
        { name := none, description := none
          shareMode := some ShareMode.PASSWORD_PROTECTED, sharePassword := none }
      = (ActionResult.ok { linkCollection with shareMode := ShareMode.PASSWORD_PROTECTED }
           (some "Collection updated successfully"),
         { linkDB with collections :=
             (linkDB.collections.map
               (fun x => if x.id == "c2" then
                  { linkCollection with shareMode := ShareMode.PASSWORD_PROTECTED }
                else x)) })) ∧
    (createInputValid
        { name := "Notes", description := none, slug := none
          shareMode := some ShareMode.PRIVATE, sharePassword := some (some "secret1") }
      = true) :=
  ⟨credential_validation_amended.1 emptyDB (some "u1") "cid" "slg" _ rfl (by decide),
   credential_validation_amended.2.1 linkDB "u1" "c2" linkCollection (by decide) (by decide),
   credential_validation_amended.2.2 "Notes" "secret1" ShareMode.PRIVATE
     (by decide) (by decide) (by decide) (by decide) (by decide)⟩

end Bookmarks
